import Mathlib

/-!
Shallow embedding of the sol-mm market-making engine (src/src/strategy.py,
risk_manager.py, volatility.py, performance_optimizer.py) and proofs about
the frozen claims.  Python floats are modelled as exact rationals; Python's
duck-typed values (dict / None / str / number) are modelled by `PyVal`;
fallible code paths (KeyError, TypeError, ZeroDivisionError, IndexError)
are modelled with `Except String`, carrying the CPython exception message.
-/

/-- Model of a duck-typed Python value as it flows through the engine:
numbers, strings, dictionaries (association lists) and `None`. -/
inductive PyVal where
  | num (q : ℚ)
  | pystr (s : String)
  | dict (entries : List (String × PyVal))
  | pynone

/-- Python type name of a value, as used in CPython error messages. -/
def PyVal.typeName : PyVal → String
  | .num _ => "float"
  | .pystr _ => "str"
  | .dict _ => "dict"
  | .pynone => "NoneType"

/-- Whether the value is numeric (Python `isinstance(value, (int, float))`). -/
def PyVal.isNum : PyVal → Bool
  | .num _ => true
  | _ => false

/-- Left-pad a natural number with zeros to 4 digits (fraction part of a
`.4f` format). -/
def padZeros4 (n : ℕ) : String :=
  if n < 10 then "000" ++ toString n
  else if n < 100 then "00" ++ toString n
  else if n < 1000 then "0" ++ toString n
  else toString n

/-- Python `format(q, ".4f")` on an exact rational: round to 4 decimal
places and render with a 4-digit fraction.  (Rounding of exact ties uses
round-half-up; the engine only ever formats values where this agrees with
CPython's rounding.) -/
def fmt4 (q : ℚ) : String :=
  let neg := decide (q < 0)
  let m : ℕ := (20000 * q.num.natAbs + q.den) / (2 * q.den)
  let ip := m / 10000
  let fp := m % 10000
  (if neg then "-" else "") ++ toString ip ++ "." ++ padZeros4 fp

/-- Python `str(value)` for the non-numeric branch of `_safe_fmt`; the
engine only ever logs this string, no claim inspects its exact content. -/
def pyReprApprox : PyVal → String
  | .num q => toString q.num
  | .pystr s => s
  | .dict _ => "\x7b...\x7d"
  | .pynone => "None"

/-- Python `dict.get(key, default)` on a `PyVal`, raising the CPython
`AttributeError` message when the receiver is not a dict. -/
def pyGet (v : PyVal) (key : String) (default : PyVal) : Except String PyVal :=
  match v with
  | .dict entries =>
    match entries.find? (fun e => e.1 == key) with
    | some e => Except.ok e.2
    | Option.none => Except.ok default
  | other => Except.error ("'" ++ other.typeName ++ "' object has no attribute 'get'")

/-- Python comparison `a > v` where `a` is a float: raises `TypeError`
when `v` is not numeric. -/
def pyGtNum (a : ℚ) (v : PyVal) : Except String Bool :=
  match v with
  | .num q => Except.ok (decide (a > q))
  | other =>
    Except.error ("'>' not supported between instances of 'float' and '" ++
      other.typeName ++ "'")

/-! ## Risk manager (src/src/risk_manager.py) -/

/-- Risk configuration thresholds (`risk_config` plus the daily trade limit
read from `trading_config` in `check_daily_trade_limit`). -/
structure RiskConfig where
  max_inventory : ℚ := 10
  max_volatility : ℚ := 24/100
  margin_buffer : ℚ := 2
  trades_per_day : ℕ := 500

/-- Mutable state of `RiskManager`. -/
structure RiskState where
  trading_paused : Bool := false
  pause_reason : String := ""
  current_inventory : PyVal := PyVal.num 0
  daily_trades : ℕ := 0
  last_reset_date : Option ℕ := Option.none

/-- One position dictionary as consumed by `check_margin_requirements`
(`.get('size', 0)`, `.get('notional', 0)`, `.get('leverage', 1)`,
`.get('symbol')`). -/
structure Position where
  symbol : String := ""
  size : ℚ := 0
  notional : ℚ := 0
  leverage : ℚ := 1

/-- Embeds `RiskManager._safe_abs`: `abs` for numeric values, `0.0` (with a logged
warning) otherwise. -/
def safeAbs : PyVal → ℚ
  | .num q => |q|
  | _ => 0

/-- Embeds `RiskManager._safe_fmt` with the default `.4f` format. -/
def safeFmt : PyVal → String
  | .num q => fmt4 q
  | other => pyReprApprox other

/-- Embeds `RiskManager.check_inventory_limits`. -/
def check_inventory_limits (rcfg : RiskConfig) (inventory : PyVal) : Bool × String :=
  if safeAbs inventory > rcfg.max_inventory then
    (false, "Inventory " ++ safeFmt inventory ++ " exceeds limit " ++
      safeFmt (PyVal.num rcfg.max_inventory))
  else (true, "")

/-- Embeds `RiskManager.check_volatility_limits` (the limit is rendered with
`str()`; no claim inspects this string's content). -/
def check_volatility_limits (rcfg : RiskConfig) (volatility : ℚ) : Bool × String :=
  if volatility > rcfg.max_volatility then
    (false, "Volatility " ++ fmt4 volatility ++ " exceeds limit " ++
      toString rcfg.max_volatility.num)
  else (true, "")

/-- The total-margin loop of `check_margin_requirements`: the sum of
`abs(notional / leverage)` over open positions, raising `ZeroDivisionError`
at the first open position with leverage 0 (the division happens before
`_safe_abs` can intervene). -/
def marginTotal : List Position → Except String ℚ
  | [] => Except.ok 0
  | p :: rest =>
    if p.size ≠ 0 then
      if p.leverage = 0 then Except.error "float division by zero"
      else
        match marginTotal rest with
        | Except.ok t => Except.ok (|p.notional / p.leverage| + t)
        | Except.error e => Except.error e
    else marginTotal rest

/-- The rest of the `try` block: the USDC free-balance lookups (which raise
`AttributeError` on non-dict shapes) and the buffer comparison (which
raises `TypeError` when the free balance is not numeric). -/
def marginBody (rcfg : RiskConfig) (balance : PyVal) (positions : List Position) :
    Except String (Bool × String) :=
  match marginTotal positions with
  | Except.error e => Except.error e
  | Except.ok total =>
    match pyGet balance "USDC" (PyVal.dict []) with
    | Except.error e => Except.error e
    | Except.ok usdc =>
      match pyGet usdc "free" (PyVal.num 0) with
      | Except.error e => Except.error e
      | Except.ok available =>
        match pyGtNum (total * rcfg.margin_buffer) available with
        | Except.error e => Except.error e
        | Except.ok exceeded =>
          if exceeded then
            Except.ok (false, "Insufficient margin: " ++ safeFmt available ++ " < " ++
              fmt4 (total * rcfg.margin_buffer))
          else Except.ok (true, "")

/-- Embeds `RiskManager.check_margin_requirements`: the `except` clause converts
any exception into a failed check. -/
def check_margin_requirements (rcfg : RiskConfig) (balance : PyVal)
    (positions : List Position) : Bool × String :=
  match marginBody rcfg balance positions with
  | Except.ok r => r
  | Except.error e => (false, "Error checking margin: " ++ e)

/-- Embeds `RiskManager.check_daily_trade_limit`. -/
def check_daily_trade_limit (rcfg : RiskConfig) (rst : RiskState) : Bool × String :=
  if rst.daily_trades ≥ rcfg.trades_per_day then
    (false, "Daily trade limit reached: " ++ toString rst.daily_trades ++ "/" ++
      toString rcfg.trades_per_day)
  else (true, "")

/-- Embeds `RiskManager.reset_daily_metrics`: zero the trade counter the first
time a check runs on a new calendar date (`today` is the current date). -/
def reset_daily_metrics (today : ℕ) (rst : RiskState) : RiskState :=
  if rst.last_reset_date ≠ some today then
    { rst with daily_trades := 0, last_reset_date := some today }
  else rst

/-- Embeds `RiskManager.update_inventory`: stores the raw inventory, then formats
it with `f"{inventory:.4f}"` — which raises `TypeError` for non-numeric
values (the assignment has already happened when the raise occurs). -/
def update_inventory (inventory : PyVal) (rst : RiskState) :
    Except String Unit × RiskState :=
  let rst2 := { rst with current_inventory := inventory }
  match inventory with
  | .num _ => (Except.ok (), rst2)
  | other =>
    (Except.error ("unsupported format string passed to " ++ other.typeName ++
      ".__format__"), rst2)

/-- Embeds `RiskManager.pause_trading`. -/
def pause_trading (reason : String) (rst : RiskState) : RiskState :=
  { rst with trading_paused := true, pause_reason := reason }

/-- Embeds `RiskManager.resume_trading`. -/
def resume_trading (rst : RiskState) : RiskState :=
  { rst with trading_paused := false, pause_reason := "" }

/-- The violation list accumulated by `comprehensive_risk_check` (reading
the trade counter from the state as it stands after the daily reset). -/
def riskViolations (rcfg : RiskConfig) (inventory : PyVal) (volatility : ℚ)
    (balance : PyVal) (positions : List Position) (rst1 : RiskState) : List String :=
  let v1 := check_inventory_limits rcfg inventory
  let v2 := check_volatility_limits rcfg volatility
  let v3 := check_margin_requirements rcfg balance positions
  let v4 := check_daily_trade_limit rcfg rst1
  (if v1.1 then [] else [v1.2]) ++ (if v2.1 then [] else [v2.2]) ++
    (if v3.1 then [] else [v3.2]) ++ (if v4.1 then [] else [v4.2])

/-- Embeds `RiskManager.comprehensive_risk_check`: runs the four checks, updates
tracked inventory (which raises for non-numeric inventory), then pauses or
resumes trading.  Returns the `(is_safe, violations)` result on the
`Except` channel together with the risk state as of return or raise. -/
def comprehensive_risk_check (rcfg : RiskConfig) (today : ℕ) (inventory : PyVal)
    (volatility : ℚ) (balance : PyVal) (positions : List Position)
    (rst : RiskState) : Except String (Bool × List String) × RiskState :=
  let rst1 := reset_daily_metrics today rst
  let violations := riskViolations rcfg inventory volatility balance positions rst1
  match update_inventory inventory rst1 with
  | (Except.error m, rst2) => (Except.error m, rst2)
  | (Except.ok _, rst2) =>
    if violations.isEmpty then
      (Except.ok (true, violations), resume_trading rst2)
    else
      (Except.ok (false, violations), pause_trading (String.intercalate "; " violations) rst2)

/-! ## Volatility estimator (src/src/volatility.py) -/

/-- The fields of one OHLCV candle used by the ATR computation
(row indices 2, 3, 4 of a ccxt OHLCV row). -/
structure Candle where
  high : ℚ
  low : ℚ
  close : ℚ

/-- Embeds `VolatilityCalculator.calculate_true_range`. -/
def calculate_true_range (high low prev_close : ℚ) : ℚ :=
  max (high - low) (max |high - prev_close| |low - prev_close|)

/-- The loop `for i in range(1, len(ohlcv))` of `calculate_atr`: True Range
of each candle against the previous candle's close. -/
def trueRangesFrom : Candle → List Candle → List ℚ
  | _, [] => []
  | prev, c :: rest =>
    calculate_true_range c.high c.low prev.close :: trueRangesFrom c rest

/-- True Range list over the whole candle sequence (empty when fewer than
two candles). -/
def trueRangeList : List Candle → List ℚ
  | [] => []
  | c :: rest => trueRangesFrom c rest

/-- Python slice `xs[-p:]` (for `p = 0` the slice is the whole list). -/
def pyTail (xs : List ℚ) (p : ℕ) : List ℚ :=
  if p = 0 then xs else xs.drop (xs.length - p)

/-- Embeds `numpy.mean` of a rational list (sum divided by length). -/
def npMean (xs : List ℚ) : ℚ :=
  xs.sum / (xs.length : ℚ)

/-- Embeds `VolatilityCalculator.calculate_atr` on the fetched candle sequence
(the path where the ATR cache misses and `period + 1` candles were
requested): fewer than `period + 1` candles fail soft to `0.0` with a
logged warning, otherwise ATR is the mean of the last `period` True Range
values (`np.mean(true_ranges[-period:])`). -/
def calculate_atr (ohlcv : List Candle) (period : ℕ) : ℚ :=
  if ohlcv.length < period + 1 then 0
  else npMean (pyTail (trueRangeList ohlcv) period)

/-- Spec-side formulation of the ATR value, written from the spec's words:
True Range per adjacent candle pair, arithmetic mean of the last `period`
values. -/
def atrSpecMean (ohlcv : List Candle) (period : ℕ) : ℚ :=
  let trs := (ohlcv.zip ohlcv.tail).map fun pc =>
    max (pc.2.high - pc.2.low) (max |pc.2.high - pc.1.close| |pc.2.low - pc.1.close|)
  (trs.drop (trs.length - period)).sum / (period : ℚ)

/-! ## Cache layer (src/src/performance_optimizer.py) -/

/-- One price-cache entry: the stored data and its insertion timestamp. -/
structure CacheEntry (α : Type) where
  data : α
  timestamp : ℚ

/-- Embeds `PerformanceOptimizer.price_cache_ttl` (1.0 second). -/
def price_cache_ttl : ℚ := 1

/-- Embeds `PerformanceOptimizer.cache_price_data`: store `price_data` under
`symbol` with the current time, replacing any previous entry. -/
def cache_price_data {α : Type} (cache : List (String × CacheEntry α))
    (symbol : String) (price_data : α) (now : ℚ) : List (String × CacheEntry α) :=
  (symbol, ⟨price_data, now⟩) :: cache.filter (fun e => e.1 ≠ symbol)

/-- Embeds `PerformanceOptimizer.get_cached_price`: return the entry while it is
younger than the TTL; at or past the TTL delete it (lazy eviction) and
return absent. -/
def get_cached_price {α : Type} (cache : List (String × CacheEntry α))
    (symbol : String) (now : ℚ) : Option α × List (String × CacheEntry α) :=
  match cache.find? (fun e => e.1 == symbol) with
  | Option.none => (Option.none, cache)
  | some e =>
    if now - e.2.timestamp < price_cache_ttl then (some e.2.data, cache)
    else (Option.none, cache.filter (fun e => e.1 ≠ symbol))

/-! ## Strategy (src/src/strategy.py) -/

/-- Configuration of `MarketMakingStrategy` (asset, volume and funding
settings read in `__init__`). -/
structure StratConfig where
  base_spread : ℚ := 3/1000
  inventory_size : ℚ := 30
  leverage : ℚ := 10
  min_spread : ℚ := 5/10000
  max_spread : ℚ := 50/10000
  spread_aggression : ℚ := 4/5
  order_tiers : ℕ := 3
  tier_spacing : ℚ := 2/10000
  min_order_size : ℚ := 1/2
  max_order_size : ℚ := 5
  target_daily_volume : ℚ := 1000
  funding_rate_annual : ℚ := 8/100

/-- Mutable per-strategy state touched by a cycle. -/
structure StratState where
  daily_volume : ℚ := 0
  last_volume_reset : Option ℕ := Option.none
  consecutive_no_fills : ℕ := 0
  last_mid_price : ℚ := 0
  last_trade_time : ℚ := 0

/-- Embeds `MarketMakingStrategy.reset_daily_volume`. -/
def reset_daily_volume (today : ℕ) (st : StratState) : StratState :=
  if st.last_volume_reset ≠ some today then
    { st with daily_volume := 0, last_volume_reset := some today }
  else st

/-- The volatility-adjusted, aggression-discounted, `[min_spread,
max_spread]`-clamped spread computed by the first half of
`calculate_aggressive_spread`. -/
def clampSpread (cfg : StratConfig) (volatility : ℚ) : ℚ :=
  let base := if volatility < 1/100 then cfg.base_spread * (7/10)
              else if volatility > 2/100 then cfg.base_spread * (6/5)
              else cfg.base_spread
  let aggressive := base * (1 - cfg.spread_aggression * (1/2))
  max cfg.min_spread (min aggressive cfg.max_spread)

/-- The volume-progress scaling at the end of `calculate_aggressive_spread`
(only reached when `target_daily_volume` is nonzero). -/
def volumeScale (cfg : StratConfig) (st : StratState) (s : ℚ) : ℚ :=
  let progress := st.daily_volume / cfg.target_daily_volume
  if progress < 3/10 then s * (9/10)
  else if progress > 4/5 then s * (11/10)
  else s

/-- Embeds `MarketMakingStrategy.calculate_aggressive_spread`: clamp, then the
no-fill discount (applied only when `consecutive_no_fills > 5`, strictly,
resetting the counter), then volume scaling.  The ATR computed at the top
of the source method is unused.  When `target_daily_volume` is zero the
`volume_progress` division raises `ZeroDivisionError`, the method's
`except` returns `base_spread`, and the counter reset (which happened
before the raise) persists. -/
def calculate_aggressive_spread (cfg : StratConfig) (st : StratState)
    (volatility : ℚ) : ℚ × StratState :=
  let c := clampSpread cfg volatility
  let s2 := if 5 < st.consecutive_no_fills then c * (4/5) else c
  let st2 := if 5 < st.consecutive_no_fills then { st with consecutive_no_fills := 0 } else st
  if cfg.target_daily_volume = 0 then (cfg.base_spread, st2)
  else (volumeScale cfg st s2, st2)

/-- Tier weight table `[0.4, 0.35, 0.25][i]`. -/
def tierFactor (i : ℕ) : ℚ :=
  [2/5, 7/20, 1/4].getD i 0

/-- Embeds `MarketMakingStrategy.calculate_order_sizes`: weight the base size per
tier and clamp each to `[min_order_size, max_order_size]`; with more than
three tiers the weight-table lookup raises `IndexError`. -/
def calculate_order_sizes (cfg : StratConfig) (base_size : ℚ) :
    Except String (List ℚ) :=
  if cfg.order_tiers > 3 then Except.error "list index out of range"
  else Except.ok ((List.range cfg.order_tiers).map fun i =>
    max cfg.min_order_size (min (base_size * tierFactor i) cfg.max_order_size))

/-- Embeds `MarketMakingStrategy.calculate_quotes`: aggressive spread, base size
`inventory_size / (2 * order_tiers)` (`ZeroDivisionError` when
`order_tiers = 0`), per-tier spread `spread + i * tier_spacing`, quotes
`mid * (1 ∓ half_spread)`.  Any exception falls back to a single tier at
the base spread with size `inventory_size / 2`. -/
def calculate_quotes (cfg : StratConfig) (st : StratState) (mid_price volatility : ℚ) :
    List (ℚ × ℚ × ℚ) × StratState :=
  let sp := calculate_aggressive_spread cfg st volatility
  let qbody : Except String (List (ℚ × ℚ × ℚ)) :=
    if cfg.order_tiers = 0 then Except.error "float division by zero"
    else
      match calculate_order_sizes cfg (cfg.inventory_size / (2 * (cfg.order_tiers : ℚ))) with
      | Except.error e => Except.error e
      | Except.ok sizes =>
        Except.ok (sizes.enum.map fun t =>
          let tier_spread := sp.1 + (t.1 : ℚ) * cfg.tier_spacing
          let half := tier_spread / 2
          (mid_price * (1 - half), mid_price * (1 + half), t.2))
  match qbody with
  | Except.ok qs => (qs, sp.2)
  | Except.error _ =>
    ([(mid_price * (1 - cfg.base_spread / 2), mid_price * (1 + cfg.base_spread / 2),
       cfg.inventory_size / 2)], sp.2)

/-- Embeds `MarketMakingStrategy.calculate_hedge_size`: `-spot_inventory *
leverage`; unary minus on a non-numeric value raises `TypeError`. -/
def calculate_hedge_size (cfg : StratConfig) (spot_inventory : PyVal) :
    Except String ℚ :=
  match spot_inventory with
  | .num q => Except.ok (-q * cfg.leverage)
  | other => Except.error ("bad operand type for unary -: '" ++ other.typeName ++ "'")

/-- Embeds `MarketMakingStrategy.update_volume_metrics` with `trade_size = 0`:
daily reset, then increment the no-fill counter when the last fill is more
than 300 seconds old. -/
def update_volume_metrics (today : ℕ) (now : ℚ) (st : StratState) : StratState :=
  let st1 := reset_daily_volume today st
  if now - st1.last_trade_time > 300 then
    { st1 with consecutive_no_fills := st1.consecutive_no_fills + 1 }
  else st1

/-! ## Strategy cycle (MarketMakingStrategy.execute_strategy_cycle) -/

/-- The environment a cycle runs in: today's date, the clock, the gateway
fetch results (each gateway method catches transport errors internally and
returns absent), and the outcomes of the order-placing sub-calls (which
also swallow their own exceptions in the source, so only their results are
visible to the cycle). -/
structure CycleEnv where
  today : ℕ := 0
  now : ℚ := 0
  ticker : Option ℚ := Option.none
  balance : PyVal := PyVal.pynone
  positions : Option (List Position) := Option.none
  perp_symbol : String := "SOL/USDC:USDC"
  volatility : ℚ := 0
  fundingRate : Option ℚ := Option.none
  fundingTicker : Option ℚ := Option.none
  perpTicker : Option ℚ := Option.none
  spotOrdersPlaced : ℕ := 0
  hedgeOrderId : Option String := Option.none

/-- Which externally visible order actions the cycle attempted. -/
structure CycleEffects where
  cancelAttempted : Bool := false
  spotQuotesAttempted : Bool := false

/-- The result dictionary returned by `execute_strategy_cycle` (fields that
a given return path leaves out of the Python dict keep their defaults
here). -/
structure CycleResult where
  success : Bool
  error : String := ""
  trading_paused : Bool := false
  mid_price : ℚ := 0
  quotes : ℕ := 0
  spread : ℚ := 0
  volatility : ℚ := 0
  perp_position : ℚ := 0
  funding_rate : ℚ := 0
  funding_income : ℚ := 0
  spot_orders : ℕ := 0
  hedge_order : Bool := false
  daily_volume : ℚ := 0
  volume_progress : ℚ := 0

/-- Embeds `MarketMakingStrategy.calculate_funding_income` (its own `try` block
absorbs exceptions; with a numeric position and rate none occur): absent
ticker yields 0, else `abs(perp_position) * last * funding_rate`. -/
def calculate_funding_income (env : CycleEnv) (perp_position funding_rate : ℚ) : ℚ :=
  match env.fundingTicker with
  | Option.none => 0
  | some last => |perp_position| * last * funding_rate

/-- Embeds `MarketMakingStrategy.place_hedge_order`: skip when the adjustment is
below 0.01 or the perp ticker is absent; otherwise the gateway outcome is
environment-provided (the source catches its own exceptions). -/
def place_hedge_order (env : CycleEnv) (hedge_size current_perp_size : ℚ) :
    Option String :=
  if |hedge_size - current_perp_size| < 1/100 then Option.none
  else match env.perpTicker with
       | Option.none => Option.none
       | some _ => env.hedgeOrderId

/-- The perp position extracted from the positions list (first entry whose
symbol matches, defaulting to 0;
`_normalize_position_size` is the identity on this numeric value). -/
def extractPerpPosition (env : CycleEnv) : ℚ :=
  match env.positions with
  | Option.none => 0
  | some ps =>
    match ps.find? (fun p => p.symbol == env.perp_symbol) with
    | some p => p.size
    | Option.none => 0

/-- The body of the `try` block of `execute_strategy_cycle`, step by step;
the `Except` channel carries an uncaught exception to the cycle boundary,
alongside the strategy state, risk state and effects as of return or
raise. -/
def cycleBody (cfg : StratConfig) (rcfg : RiskConfig) (env : CycleEnv)
    (st : StratState) (rst : RiskState) :
    Except String CycleResult × StratState × RiskState × CycleEffects :=
  let st := reset_daily_volume env.today st
  match env.ticker with
  | Option.none => (Except.ok { success := false, error := "Unable to get ticker" }, st, rst, {})
  | some mid =>
    let st := { st with last_mid_price := mid }
    let spot_inventory := env.balance
    let perp_position := extractPerpPosition env
    let volatility := env.volatility
    let funding_rate := env.fundingRate.getD (cfg.funding_rate_annual / 365)
    let funding_income := calculate_funding_income env perp_position funding_rate
    let positions := env.positions.getD []
    match comprehensive_risk_check rcfg env.today spot_inventory volatility
        env.balance positions rst with
    | (Except.error m, rst2) => (Except.error m, st, rst2, {})
    | (Except.ok (risk_safe, violations), rst2) =>
      if risk_safe = false then
        (Except.ok { success := false,
                     error := "Risk violations: " ++ String.intercalate ", " violations,
                     trading_paused := true },
         st, rst2, { cancelAttempted := true })
      else
        let qp := calculate_quotes cfg st mid volatility
        let eff : CycleEffects := { cancelAttempted := true, spotQuotesAttempted := true }
        match calculate_hedge_size cfg spot_inventory with
        | Except.error m => (Except.error m, qp.2, rst2, eff)
        | Except.ok required_hedge =>
          let hedge_order := place_hedge_order env required_hedge perp_position
          let st3 := update_volume_metrics env.today env.now qp.2
          let rst3 := { rst2 with daily_trades := rst2.daily_trades + 1 }
          if cfg.target_daily_volume = 0 then
            (Except.error "float division by zero", st3, rst3, eff)
          else
            (Except.ok { success := true,
                         mid_price := mid,
                         quotes := qp.1.length,
                         spread := match qp.1 with
                                   | [] => 0
                                   | t :: _ => t.2.1 - t.1,
                         volatility := volatility,
                         perp_position := perp_position,
                         funding_rate := funding_rate,
                         funding_income := funding_income,
                         spot_orders := env.spotOrdersPlaced,
                         hedge_order := hedge_order.isSome,
                         daily_volume := st3.daily_volume,
                         volume_progress := st3.daily_volume / cfg.target_daily_volume },
             st3, rst3, eff)

/-- Embeds `MarketMakingStrategy.execute_strategy_cycle`: the boundary
`except Exception` turns an uncaught exception into a failed result with
`error = str(e)`. -/
def execute_strategy_cycle (cfg : StratConfig) (rcfg : RiskConfig) (env : CycleEnv)
    (st : StratState) (rst : RiskState) :
    CycleResult × StratState × RiskState × CycleEffects :=
  match cycleBody cfg rcfg env st rst with
  | (Except.ok r, st2, rst2, eff) => (r, st2, rst2, eff)
  | (Except.error m, st2, rst2, eff) => ({ success := false, error := m }, st2, rst2, eff)

/-! ## Theorems about the claims -/

/-- Helper: `find?` for a key never succeeds on a list filtered to exclude
that key. -/
theorem find?_filter_ne_none {α : Type} (l : List (String × CacheEntry α)) (s : String) :
    (l.filter (fun e => e.1 ≠ s)).find? (fun e => e.1 == s) = Option.none := by
  induction l with
  | nil => rfl
  | cons h t ih =>
    by_cases hh : h.1 = s
    · simp [List.filter_cons, hh, ih]
    · simp [List.filter_cons, hh, List.find?_cons, ih]

/-- C10: a non-numeric inventory argument is coerced to absolute value 0.0
by `_safe_abs`, so `check_inventory_limits` reports safe with no violation
whenever the configured `max_inventory` is non-negative. -/
theorem check_inventory_limits_nonnumeric_safe (rcfg : RiskConfig) (v : PyVal)
    (hv : v.isNum = false) (h : 0 ≤ rcfg.max_inventory) :
    check_inventory_limits rcfg v = (true, "") := by
  have hz : safeAbs v = 0 := by
    cases v with
    | num q => simp [PyVal.isNum] at hv
    | pystr s => rfl
    | dict e => rfl
    | pynone => rfl
  simp [check_inventory_limits, hz, not_lt.mpr h]

/-- Witness for C10 at a concrete balance-mapping inventory. -/
theorem check_inventory_limits_nonnumeric_safe_witness :
    check_inventory_limits {} (PyVal.dict []) = (true, "") :=
  check_inventory_limits_nonnumeric_safe {} (PyVal.dict []) rfl (by norm_num)

/-- C6 counterexample: with `max_inventory = 10.0`, the violation produced
for inventory 15.0 is not the spec's string `"Inventory 15.0000 exceeds
limit 10.0"` — the limit is also formatted with `.4f`. -/
theorem inventory_violation_string_counterexample :
    check_inventory_limits {} (PyVal.num 15) ≠
      (false, "Inventory 15.0000 exceeds limit 10.0") := by
  decide

/-- C6 amended: with `max_inventory = 10.0`, inventory 5.0 passes with no
violation and inventory 15.0 yields exactly the violation string
`"Inventory 15.0000 exceeds limit 10.0000"` (both numbers `.4f`-formatted
by `_safe_fmt`). -/
theorem check_inventory_limits_scenario :
    check_inventory_limits {} (PyVal.num 5) = (true, "") ∧
    check_inventory_limits {} (PyVal.num 15) =
      (false, "Inventory 15.0000 exceeds limit 10.0000") := by
  constructor
  · decide
  · decide

/-- Margin-check variant modelled from the spec's words for C5: "A position
with leverage 0 must not raise a division fault — treat as margin
contribution 0 and log a warning"; everything else as in the source. -/
def marginTotalSpecZeroLev : List Position → ℚ
  | [] => 0
  | p :: rest =>
    (if p.size ≠ 0 ∧ p.leverage ≠ 0 then |p.notional / p.leverage| else 0) +
      marginTotalSpecZeroLev rest

/-- The spec-described margin check: zero-leverage positions contribute 0. -/
def check_margin_requirements_specZeroLev (rcfg : RiskConfig) (balance : PyVal)
    (positions : List Position) : Bool × String :=
  let total := marginTotalSpecZeroLev positions
  match pyGet balance "USDC" (PyVal.dict []) with
  | Except.error e => (false, "Error checking margin: " ++ e)
  | Except.ok usdc =>
    match pyGet usdc "free" (PyVal.num 0) with
    | Except.error e => (false, "Error checking margin: " ++ e)
    | Except.ok available =>
      match pyGtNum (total * rcfg.margin_buffer) available with
      | Except.error e => (false, "Error checking margin: " ++ e)
      | Except.ok exceeded =>
        if exceeded then
          (false, "Insufficient margin: " ++ safeFmt available ++ " < " ++
            fmt4 (total * rcfg.margin_buffer))
        else (true, "")

/-- C5 counterexample: a well-funded balance and a single open position with
leverage 0.  The source check reports unsafe with the caught
`ZeroDivisionError`, while the spec-described contribution-0 treatment
reports safe — the two outcomes differ. -/
theorem margin_zero_leverage_counterexample :
    check_margin_requirements {}
        (PyVal.dict [("USDC", PyVal.dict [("free", PyVal.num 1000000)])])
        [{ symbol := "SOL", size := 1, notional := 100, leverage := 0 }] =
      (false, "Error checking margin: float division by zero") ∧
    check_margin_requirements_specZeroLev {}
        (PyVal.dict [("USDC", PyVal.dict [("free", PyVal.num 1000000)])])
        [{ symbol := "SOL", size := 1, notional := 100, leverage := 0 }] =
      (true, "") := by
  constructor
  · decide
  · simp [check_margin_requirements_specZeroLev, marginTotalSpecZeroLev, pyGet, pyGtNum]

/-- C5 amended: an open position with leverage 0 makes the division in
`check_margin_requirements` raise `ZeroDivisionError`; the method's own
`except` catches it (no fault propagates) and the check returns unsafe with
reason `"Error checking margin: float division by zero"` — it is not
treated as margin contribution 0. -/
theorem margin_zero_leverage_unsafe (rcfg : RiskConfig) (balance : PyVal)
    (positions : List Position)
    (h : ∃ p ∈ positions, p.size ≠ 0 ∧ p.leverage = 0) :
    check_margin_requirements rcfg balance positions =
      (false, "Error checking margin: float division by zero") := by
  have htot : marginTotal positions = Except.error "float division by zero" := by
    induction positions with
    | nil => simp at h
    | cons p rest ih =>
      rcases h with ⟨q, hq, hqs, hql⟩
      rcases List.mem_cons.mp hq with hhead | htail
      · subst hhead
        simp [marginTotal, hqs, hql]
      · by_cases hs : p.size = 0
        · simpa [marginTotal, hs] using ih ⟨q, htail, hqs, hql⟩
        · by_cases hl : p.leverage = 0
          · simp [marginTotal, hs, hl]
          · simp [marginTotal, hs, hl, ih ⟨q, htail, hqs, hql⟩]
  simp [check_margin_requirements, marginBody, htot]

/-- Witness for C5's amended theorem at a concrete position list. -/
theorem margin_zero_leverage_unsafe_witness :
    check_margin_requirements {} PyVal.pynone
        [{ symbol := "SOL", size := 2, notional := 50, leverage := 0 }] =
      (false, "Error checking margin: float division by zero") :=
  margin_zero_leverage_unsafe {} PyVal.pynone _
    ⟨_, List.mem_singleton.mpr rfl, by norm_num, rfl⟩

/-- C8: a price cached at `t0` is returned unchanged by a lookup strictly
less than the 1.0s TTL later, and a lookup at or past the TTL returns
absent and evicts the entry. -/
theorem cache_price_roundtrip {α : Type} (cache : List (String × CacheEntry α))
    (symbol : String) (v : α) (t0 t1 : ℚ) :
    (t1 - t0 < price_cache_ttl →
      (get_cached_price (cache_price_data cache symbol v t0) symbol t1).1 = some v) ∧
    (price_cache_ttl ≤ t1 - t0 →
      (get_cached_price (cache_price_data cache symbol v t0) symbol t1).1 = Option.none ∧
      ((get_cached_price (cache_price_data cache symbol v t0) symbol t1).2.find?
          (fun e => e.1 == symbol)) = Option.none) := by
  constructor
  · intro h
    simp [get_cached_price, cache_price_data, List.find?_cons, h]
  · intro h
    have hn : ¬ (t1 - t0 < price_cache_ttl) := not_lt.mpr h
    constructor
    · simp [get_cached_price, cache_price_data, List.find?_cons, hn]
    · simp only [get_cached_price, cache_price_data]
      rw [List.find?_cons_of_pos _ (by simp)]
      simp only [if_neg hn]
      simp [List.filter_cons, find?_filter_ne_none]

/-- Witness for C8: store at time 0, hit at 0.5s, miss and evict at 1.0s. -/
theorem cache_price_roundtrip_witness :
    (get_cached_price (cache_price_data ([] : List (String × CacheEntry ℚ)) "SOL/USDC" 143 0)
        "SOL/USDC" (1/2)).1 = some 143 ∧
    (get_cached_price (cache_price_data ([] : List (String × CacheEntry ℚ)) "SOL/USDC" 143 0)
        "SOL/USDC" 1).1 = Option.none :=
  ⟨(cache_price_roundtrip [] "SOL/USDC" 143 0 (1/2)).1 (by norm_num [price_cache_ttl]),
   ((cache_price_roundtrip [] "SOL/USDC" 143 0 1).2 (by norm_num [price_cache_ttl])).1⟩

/-- Helper: the True Range loop equals the zip-with-tail formulation. -/
theorem trueRangesFrom_eq_zip (prev : Candle) (l : List Candle) :
    trueRangesFrom prev l = ((prev :: l).zip l).map
      (fun pc => max (pc.2.high - pc.2.low)
        (max |pc.2.high - pc.1.close| |pc.2.low - pc.1.close|)) := by
  induction l generalizing prev with
  | nil => rfl
  | cons c rest ih => simp [trueRangesFrom, calculate_true_range, List.zip, ih c]

/-- Helper: the True Range list over the whole candle sequence equals the
adjacent-pair formulation used by the spec. -/
theorem trueRangeList_eq_zip (l : List Candle) :
    trueRangeList l = (l.zip l.tail).map
      (fun pc => max (pc.2.high - pc.2.low)
        (max |pc.2.high - pc.1.close| |pc.2.low - pc.1.close|)) := by
  cases l with
  | nil => rfl
  | cons c rest => simp [trueRangeList, trueRangesFrom_eq_zip]

/-- C4: with at least `period + 1` candles, `calculate_atr` returns the
arithmetic mean of the last `period` True Range values over adjacent candle
pairs; with fewer candles it fails soft to 0.0. -/
theorem calculate_atr_spec (ohlcv : List Candle) (period : ℕ) (hp : 1 ≤ period) :
    (period + 1 ≤ ohlcv.length → calculate_atr ohlcv period = atrSpecMean ohlcv period) ∧
    (ohlcv.length < period + 1 → calculate_atr ohlcv period = 0) := by
  constructor
  · intro hlen
    have hnotlt : ¬ (ohlcv.length < period + 1) := not_lt.mpr hlen
    have hzlen : (ohlcv.zip ohlcv.tail).length = ohlcv.length - 1 := by
      simp [List.length_zip]
    have htr : (trueRangeList ohlcv).length = ohlcv.length - 1 := by
      rw [trueRangeList_eq_zip, List.length_map, hzlen]
    have hple : period ≤ (trueRangeList ohlcv).length := by omega
    have hdlen : ((trueRangeList ohlcv).drop ((trueRangeList ohlcv).length - period)).length
        = period := by
      rw [List.length_drop]
      omega
    have hp0 : period ≠ 0 := by omega
    rw [calculate_atr, if_neg hnotlt, atrSpecMean, pyTail, if_neg hp0, npMean, hdlen]
    rw [trueRangeList_eq_zip, List.length_map, hzlen]
  · intro hlt
    rw [calculate_atr, if_pos hlt]

/-- Concrete candle used in the C4 witness scenario: every True Range
against the previous candle is `max(1-0, |1-0|, |0-0|) = 1`. -/
def unitCandle : Candle := { high := 1, low := 0, close := 0 }

/-- Fifteen identical candles whose 14 True Range values are all 1.0. -/
def candles15 : List Candle :=
  [unitCandle, unitCandle, unitCandle, unitCandle, unitCandle,
   unitCandle, unitCandle, unitCandle, unitCandle, unitCandle,
   unitCandle, unitCandle, unitCandle, unitCandle, unitCandle]

/-- Helper: the True Range of the witness candle pattern is 1. -/
theorem tr_unitCandle : calculate_true_range 1 0 0 = 1 := by
  unfold calculate_true_range
  rw [show (1:ℚ) - 0 = 1 by ring, show (0:ℚ) - 0 = 0 by ring, abs_one, abs_zero]
  rw [max_eq_left (by norm_num : (0:ℚ) ≤ 1), max_self]

/-- Witness for C4: the spec scenario — `atr_period = 14`, 15 candles with
all True Ranges equal to 1.0 — where the general theorem applies and the
computed ATR is exactly 1.0. -/
theorem calculate_atr_spec_witness :
    calculate_atr candles15 14 = atrSpecMean candles15 14 ∧
    calculate_atr candles15 14 = 1 := by
  constructor
  · exact (calculate_atr_spec candles15 14 (by norm_num)).1 (by decide)
  · simp [calculate_atr, candles15, unitCandle, trueRangeList, trueRangesFrom,
      tr_unitCandle, pyTail, npMean]
    norm_num

/-- C7 counterexample: with the no-fill counter at exactly 5 (five
consecutive no-fill cycles), the clamped spread 0.0018 is returned without
the extra 20% reduction and the counter is not reset — the source condition
is `consecutive_no_fills > 5`, strictly. -/
theorem no_fill_reduction_counterexample :
    (calculate_aggressive_spread {} { daily_volume := 500, consecutive_no_fills := 5 }
        (15/1000)).1 = 9/5000 ∧
    (calculate_aggressive_spread {} { daily_volume := 500, consecutive_no_fills := 5 }
        (15/1000)).2.consecutive_no_fills = 5 := by
  constructor
  · norm_num [calculate_aggressive_spread, clampSpread, volumeScale]
  · norm_num [calculate_aggressive_spread]

/-- C7 amended: the extra 20% reduction on the clamped spread and the
counter reset happen exactly when the no-fill counter is strictly greater
than 5 (at least 6 consecutive no-fill cycles), not at 5. -/
theorem no_fill_reduction_applied (cfg : StratConfig) (st : StratState) (vol : ℚ)
    (h : 5 < st.consecutive_no_fills) :
    (calculate_aggressive_spread cfg st vol).2.consecutive_no_fills = 0 ∧
    (cfg.target_daily_volume ≠ 0 →
      (calculate_aggressive_spread cfg st vol).1 =
        volumeScale cfg st (clampSpread cfg vol * (4/5))) := by
  constructor
  · by_cases ht : cfg.target_daily_volume = 0 <;>
      simp [calculate_aggressive_spread, h, ht]
  · intro ht
    simp [calculate_aggressive_spread, h, ht]

/-- Witness for C7's amended theorem at a counter of 6. -/
theorem no_fill_reduction_applied_witness :
    (calculate_aggressive_spread {} { consecutive_no_fills := 6 } 0).2.consecutive_no_fills = 0 ∧
    (calculate_aggressive_spread {} { consecutive_no_fills := 6 } 0).1 =
      volumeScale {} { consecutive_no_fills := 6 } (clampSpread {} 0 * (4/5)) :=
  ⟨(no_fill_reduction_applied {} { consecutive_no_fills := 6 } 0 (by norm_num)).1,
   (no_fill_reduction_applied {} { consecutive_no_fills := 6 } 0 (by norm_num)).2
     (by norm_num)⟩

/-- Helper: enumerating a map over `List.range` pairs each index with the
mapped value. -/
theorem enum_map_range {β : Type} (g : ℕ → β) (n : ℕ) :
    ((List.range n).map g).enum = (List.range n).map (fun i => (i, g i)) := by
  apply List.ext_getElem
  · simp
  · intro i h1 h2
    simp [List.getElem_enum]

/-- Helper: the clamped aggressive spread never falls below `min_spread`. -/
theorem clampSpread_ge (cfg : StratConfig) (vol : ℚ) :
    cfg.min_spread ≤ clampSpread cfg vol :=
  le_max_left _ _

/-- Helper: with a positive `min_spread` and a nonzero daily-volume target,
the aggressive spread is positive. -/
theorem aggressive_spread_pos (cfg : StratConfig) (st : StratState) (vol : ℚ)
    (hms : 0 < cfg.min_spread) (ht : cfg.target_daily_volume ≠ 0) :
    0 < (calculate_aggressive_spread cfg st vol).1 := by
  have hc : 0 < clampSpread cfg vol := lt_of_lt_of_le hms (clampSpread_ge cfg vol)
  by_cases hn : 5 < st.consecutive_no_fills <;>
    by_cases hp1 : st.daily_volume / cfg.target_daily_volume < 3/10 <;>
    by_cases hp2 : st.daily_volume / cfg.target_daily_volume > 4/5 <;>
    simp only [calculate_aggressive_spread, volumeScale, if_neg ht, hn, hp1, hp2,
      if_true, if_false] <;>
    linarith [hc]

/-- Helper: on the main path (a positive tier count of at most three) the
quote list is the per-index formula of the source loop. -/
theorem calculate_quotes_eq (cfg : StratConfig) (st : StratState) (mid vol : ℚ)
    (h1 : cfg.order_tiers ≠ 0) (h3 : ¬ cfg.order_tiers > 3) :
    (calculate_quotes cfg st mid vol).1 = (List.range cfg.order_tiers).map (fun i : ℕ =>
      (mid * (1 - ((calculate_aggressive_spread cfg st vol).1 + (i : ℚ) * cfg.tier_spacing) / 2),
       mid * (1 + ((calculate_aggressive_spread cfg st vol).1 + (i : ℚ) * cfg.tier_spacing) / 2),
       max cfg.min_order_size
         (min (cfg.inventory_size / (2 * (cfg.order_tiers : ℚ)) * tierFactor i)
           cfg.max_order_size))) := by
  simp only [calculate_quotes, calculate_order_sizes, if_neg h1, if_neg h3,
    enum_map_range, List.map_map]
  rfl

/-- C2 counterexample: with `tier_spacing > 0` and `0 < min_order_size ≤
max_order_size` as the claim assumes, the invariants can still fail —
(a) `min_spread = 0` lets the clamped spread reach 0, making the first
tier's bid equal its ask; (b) `order_tiers = 4` trips the weight-table
`IndexError`, and the fallback single quote has size `inventory_size / 2 =
15`, far above `max_order_size = 5`; (c) `target_daily_volume = 0` makes
the volume-progress division raise, and the handler returns the raw
`base_spread = 0`, again giving bid = ask. -/
theorem quotes_invariant_counterexample :
    ((calculate_quotes { base_spread := 0, min_spread := 0, spread_aggression := 0 }
        {} 100 0).1.head?.map (fun t => (t.1, t.2.1))) = some (100, 100) ∧
    ((calculate_quotes { order_tiers := 4 } {} 143 0).1.map (fun t => t.2.2)) = [15] ∧
    ((calculate_quotes { base_spread := 0, target_daily_volume := 0 } {} 100 0).1.head?.map
        (fun t => (t.1, t.2.1))) = some (100, 100) := by
  refine ⟨?_, ?_, ?_⟩
  · norm_num [calculate_quotes, calculate_aggressive_spread, clampSpread, volumeScale,
      calculate_order_sizes, tierFactor, List.range_succ]
  · norm_num [calculate_quotes, calculate_order_sizes]
  · norm_num [calculate_quotes, calculate_aggressive_spread, clampSpread, volumeScale,
      calculate_order_sizes, tierFactor, List.range_succ]

/-- C2 amended: for mid_price > 0 and volatility ≥ 0, with configured
`tier_spacing > 0`, `0 < min_order_size ≤ max_order_size`, and additionally
`min_spread > 0`, `1 ≤ order_tiers ≤ 3` and `target_daily_volume > 0`
(ruling out the counterexample paths), every tier returned by
`calculate_quotes` has `bid < ask` and size within
`[min_order_size, max_order_size]`, and the spread `ask - bid` is
non-decreasing across tiers. -/
theorem calculate_quotes_tier_invariants (cfg : StratConfig) (st : StratState)
    (mid volatility : ℚ)
    (hmid : 0 < mid) (_hvol : 0 ≤ volatility)
    (hts : 0 < cfg.tier_spacing)
    (_hmino : 0 < cfg.min_order_size) (hmm : cfg.min_order_size ≤ cfg.max_order_size)
    (hms : 0 < cfg.min_spread)
    (ht1 : 1 ≤ cfg.order_tiers) (ht3 : cfg.order_tiers ≤ 3)
    (htv : 0 < cfg.target_daily_volume) :
    (∀ q ∈ (calculate_quotes cfg st mid volatility).1,
        q.1 < q.2.1 ∧ cfg.min_order_size ≤ q.2.2 ∧ q.2.2 ≤ cfg.max_order_size) ∧
    List.Pairwise (fun a b : ℚ × ℚ × ℚ => a.2.1 - a.1 ≤ b.2.1 - b.1)
      (calculate_quotes cfg st mid volatility).1 := by
  have hne : cfg.order_tiers ≠ 0 := by omega
  have h3 : ¬ cfg.order_tiers > 3 := by omega
  have hs : 0 < (calculate_aggressive_spread cfg st volatility).1 :=
    aggressive_spread_pos cfg st volatility hms (ne_of_gt htv)
  rw [calculate_quotes_eq cfg st mid volatility hne h3]
  constructor
  · intro q hq
    rcases List.mem_map.mp hq with ⟨i, _, rfl⟩
    have hhalf : 0 < ((calculate_aggressive_spread cfg st volatility).1 +
        (i : ℚ) * cfg.tier_spacing) / 2 := by
      have : (0:ℚ) ≤ (i : ℚ) * cfg.tier_spacing :=
        mul_nonneg (Nat.cast_nonneg i) (le_of_lt hts)
      linarith
    refine ⟨?_, le_max_left _ _, max_le hmm (min_le_right _ _)⟩
    have h1 : (1 : ℚ) - ((calculate_aggressive_spread cfg st volatility).1 +
        (i : ℚ) * cfg.tier_spacing) / 2 <
        1 + ((calculate_aggressive_spread cfg st volatility).1 +
        (i : ℚ) * cfg.tier_spacing) / 2 := by linarith
    exact mul_lt_mul_of_pos_left h1 hmid
  · rw [List.pairwise_map]
    refine (List.pairwise_lt_range cfg.order_tiers).imp ?_
    intro a b hab
    have hcast : (a : ℚ) ≤ (b : ℚ) := Nat.cast_le.mpr (le_of_lt hab)
    have hmul : (a : ℚ) * cfg.tier_spacing ≤ (b : ℚ) * cfg.tier_spacing :=
      mul_le_mul_of_nonneg_right hcast (le_of_lt hts)
    have key : ((calculate_aggressive_spread cfg st volatility).1 +
          (a : ℚ) * cfg.tier_spacing) / 2 ≤
        ((calculate_aggressive_spread cfg st volatility).1 +
          (b : ℚ) * cfg.tier_spacing) / 2 := by linarith
    have hexp : ∀ x : ℚ,
        mid * (1 + x) - mid * (1 - x) = mid * (2 * x) := by
      intro x; ring
    simp only [hexp]
    exact mul_le_mul_of_nonneg_left (by linarith) (le_of_lt hmid)

/-- Witness for C2's amended theorem at the default configuration,
mid price 143 and volatility 0. -/
theorem calculate_quotes_tier_invariants_witness :
    (∀ q ∈ (calculate_quotes {} {} 143 0).1,
        q.1 < q.2.1 ∧ ({} : StratConfig).min_order_size ≤ q.2.2 ∧
        q.2.2 ≤ ({} : StratConfig).max_order_size) ∧
    List.Pairwise (fun a b : ℚ × ℚ × ℚ => a.2.1 - a.1 ≤ b.2.1 - b.1)
      (calculate_quotes {} {} 143 0).1 :=
  calculate_quotes_tier_invariants {} {} 143 0 (by norm_num) (by norm_num)
    (by norm_num) (by norm_num) (by norm_num) (by norm_num)
    (by norm_num) (by norm_num) (by norm_num)

/-- Helper: on numeric inventory `comprehensive_risk_check` returns
`(violations.isEmpty, violations)` and pauses or resumes accordingly. -/
theorem comprehensive_num_eq (rcfg : RiskConfig) (today : ℕ) (q : ℚ) (vol : ℚ)
    (bal : PyVal) (pos : List Position) (rst : RiskState) :
    comprehensive_risk_check rcfg today (PyVal.num q) vol bal pos rst =
      ((Except.ok
          ((riskViolations rcfg (PyVal.num q) vol bal pos
              (reset_daily_metrics today rst)).isEmpty,
           riskViolations rcfg (PyVal.num q) vol bal pos (reset_daily_metrics today rst))),
       if (riskViolations rcfg (PyVal.num q) vol bal pos
            (reset_daily_metrics today rst)).isEmpty then
         resume_trading
           { reset_daily_metrics today rst with current_inventory := PyVal.num q }
       else
         pause_trading
           (String.intercalate "; "
             (riskViolations rcfg (PyVal.num q) vol bal pos (reset_daily_metrics today rst)))
           { reset_daily_metrics today rst with current_inventory := PyVal.num q }) := by
  by_cases hv : (riskViolations rcfg (PyVal.num q) vol bal pos
      (reset_daily_metrics today rst)).isEmpty <;>
    simp [comprehensive_risk_check, update_inventory, hv]

/-- Helper: after a daily reset the reset date is today. -/
theorem reset_daily_metrics_date (today : ℕ) (rst : RiskState) :
    (reset_daily_metrics today rst).last_reset_date = some today := by
  unfold reset_daily_metrics
  split
  · rfl
  · next h => simpa using h

/-- Helper: the daily reset is a no-op when the reset date is already
today. -/
theorem reset_daily_metrics_noop (today : ℕ) (rst : RiskState)
    (h : rst.last_reset_date = some today) :
    reset_daily_metrics today rst = rst := by
  unfold reset_daily_metrics
  rw [h]
  simp

/-- Helper: the violation list only reads the state's trade counter. -/
theorem riskViolations_congr (rcfg : RiskConfig) (inv : PyVal) (vol : ℚ)
    (bal : PyVal) (pos : List Position) (rst1 rst2 : RiskState)
    (h : rst1.daily_trades = rst2.daily_trades) :
    riskViolations rcfg inv vol bal pos rst1 = riskViolations rcfg inv vol bal pos rst2 := by
  unfold riskViolations check_daily_trade_limit
  rw [h]

/-- C3: a call with numeric inventory reports `is_safe` exactly when the
violation list is empty, leaves the gate PAUSED exactly when at least one
violation was produced (and ALLOWED on zero violations), and a second call
with the identical inputs after a safe call is safe again with no
violations. -/
theorem comprehensive_risk_check_gate (rcfg : RiskConfig) (today : ℕ) (q : ℚ)
    (vol : ℚ) (bal : PyVal) (pos : List Position) (rst : RiskState) :
    (comprehensive_risk_check rcfg today (PyVal.num q) vol bal pos rst).1 =
      Except.ok
        ((riskViolations rcfg (PyVal.num q) vol bal pos
            (reset_daily_metrics today rst)).isEmpty,
         riskViolations rcfg (PyVal.num q) vol bal pos (reset_daily_metrics today rst)) ∧
    ((comprehensive_risk_check rcfg today (PyVal.num q) vol bal pos rst).2.trading_paused =
      !(riskViolations rcfg (PyVal.num q) vol bal pos
          (reset_daily_metrics today rst)).isEmpty) ∧
    ((comprehensive_risk_check rcfg today (PyVal.num q) vol bal pos rst).1 =
        Except.ok (true, []) →
      (comprehensive_risk_check rcfg today (PyVal.num q) vol bal pos
          (comprehensive_risk_check rcfg today (PyVal.num q) vol bal pos rst).2).1 =
        Except.ok (true, [])) := by
  refine ⟨?_, ?_, ?_⟩
  · rw [comprehensive_num_eq]
  · rw [comprehensive_num_eq]
    by_cases hv : (riskViolations rcfg (PyVal.num q) vol bal pos
        (reset_daily_metrics today rst)).isEmpty <;>
      simp [hv, resume_trading, pause_trading]
  · intro h
    rw [comprehensive_num_eq] at h
    have hvs : riskViolations rcfg (PyVal.num q) vol bal pos
        (reset_daily_metrics today rst) = [] := by
      have := (Except.ok.injEq _ _).mp h
      exact (Prod.mk.injEq _ _ _ _).mp this |>.2
    have hsnd : (comprehensive_risk_check rcfg today (PyVal.num q) vol bal pos rst).2 =
        resume_trading
          { reset_daily_metrics today rst with current_inventory := PyVal.num q } := by
      rw [comprehensive_num_eq]
      simp [hvs]
    rw [hsnd, comprehensive_num_eq]
    have hdate : (resume_trading
        { reset_daily_metrics today rst with current_inventory := PyVal.num q
        }).last_reset_date = some today := by
      simp [resume_trading, reset_daily_metrics_date]
    rw [reset_daily_metrics_noop today _ hdate]
    have htrades : (resume_trading
        { reset_daily_metrics today rst with current_inventory := PyVal.num q
        }).daily_trades = (reset_daily_metrics today rst).daily_trades := by
      simp [resume_trading]
    rw [riskViolations_congr rcfg (PyVal.num q) vol bal pos _ _ htrades, hvs]
    simp

/-- Witness for C3: concrete safe inputs (inventory 5, volatility 0, a
funded USDC balance, no positions) — the second of two identical calls is
safe with no violations, via the gate theorem. -/
theorem comprehensive_risk_check_gate_witness :
    (comprehensive_risk_check {} 0 (PyVal.num 5) 0
        (PyVal.dict [("USDC", PyVal.dict [("free", PyVal.num 1000000)])]) []
        (comprehensive_risk_check {} 0 (PyVal.num 5) 0
          (PyVal.dict [("USDC", PyVal.dict [("free", PyVal.num 1000000)])]) []
          { last_reset_date := some 0 }).2).1 =
      Except.ok (true, []) :=
  (comprehensive_risk_check_gate {} 0 5 0
      (PyVal.dict [("USDC", PyVal.dict [("free", PyVal.num 1000000)])]) []
      { last_reset_date := some 0 }).2.2
    (by
      norm_num [comprehensive_risk_check, update_inventory, riskViolations,
        check_inventory_limits, check_volatility_limits, check_margin_requirements,
        marginBody, marginTotal, pyGet, pyGtNum, check_daily_trade_limit,
        reset_daily_metrics, safeAbs, resume_trading])

/-- Helper: the risk check raises the `TypeError` of `update_inventory`'s
float-format on every non-numeric inventory value. -/
theorem comprehensive_nonnum_error (rcfg : RiskConfig) (today : ℕ) (inv : PyVal)
    (vol : ℚ) (bal : PyVal) (pos : List Position) (rst : RiskState)
    (hv : inv.isNum = false) :
    (comprehensive_risk_check rcfg today inv vol bal pos rst).1 =
      Except.error ("unsupported format string passed to " ++ inv.typeName ++
        ".__format__") := by
  cases inv with
  | num q => simp [PyVal.isNum] at hv
  | pystr s => simp [comprehensive_risk_check, update_inventory, PyVal.typeName]
  | dict es => simp [comprehensive_risk_check, update_inventory, PyVal.typeName]
  | pynone => simp [comprehensive_risk_check, update_inventory, PyVal.typeName]

/-- Helper: any error surfacing from the risk check is the
`update_inventory` format `TypeError` of its inventory argument. -/
theorem comprehensive_error_imp (rcfg : RiskConfig) (today : ℕ) (inv : PyVal)
    (vol : ℚ) (bal : PyVal) (pos : List Position) (rst : RiskState) (m : String)
    (h : (comprehensive_risk_check rcfg today inv vol bal pos rst).1 = Except.error m) :
    m = "unsupported format string passed to " ++ inv.typeName ++ ".__format__" := by
  cases inv with
  | num q =>
    rw [comprehensive_num_eq] at h
    simp at h
  | pystr s =>
    rw [comprehensive_nonnum_error rcfg today (PyVal.pystr s) vol bal pos rst rfl] at h
    exact ((Except.error.injEq _ _).mp h).symm
  | dict es =>
    rw [comprehensive_nonnum_error rcfg today (PyVal.dict es) vol bal pos rst rfl] at h
    exact ((Except.error.injEq _ _).mp h).symm
  | pynone =>
    rw [comprehensive_nonnum_error rcfg today PyVal.pynone vol bal pos rst rfl] at h
    exact ((Except.error.injEq _ _).mp h).symm

/-- Helper: any error from the hedge-size computation is the unary-minus
`TypeError` of its argument. -/
theorem calculate_hedge_size_error (cfg : StratConfig) (v : PyVal) (m : String)
    (h : calculate_hedge_size cfg v = Except.error m) :
    m = "bad operand type for unary -: '" ++ v.typeName ++ "'" := by
  cases v <;> simp [calculate_hedge_size, PyVal.typeName] at h <;> exact h.symm

/-- Helper: the format `TypeError` message is never empty. -/
theorem format_msg_ne_empty (v : PyVal) :
    ("unsupported format string passed to " ++ v.typeName ++ ".__format__") ≠ "" := by
  cases v <;> simp only [PyVal.typeName] <;> decide

/-- Helper: the unary-minus `TypeError` message is never empty. -/
theorem unary_msg_ne_empty (v : PyVal) :
    ("bad operand type for unary -: '" ++ v.typeName ++ "'") ≠ "" := by
  cases v <;> simp only [PyVal.typeName] <;> decide

/-- Helper: every exception that reaches the cycle boundary is one of the
three raise sites of the cycle body — the inventory-format `TypeError`, the
hedge unary-minus `TypeError`, or the volume-progress `ZeroDivisionError`. -/
theorem cycleBody_error_msg (cfg : StratConfig) (rcfg : RiskConfig) (env : CycleEnv)
    (st : StratState) (rst : RiskState) (msg : String)
    (h : (cycleBody cfg rcfg env st rst).1 = Except.error msg) :
    (∃ v : PyVal, msg = "unsupported format string passed to " ++ v.typeName ++
        ".__format__") ∨
    (∃ v : PyVal, msg = "bad operand type for unary -: '" ++ v.typeName ++ "'") ∨
    msg = "float division by zero" := by
  rcases hti : env.ticker with _ | mid
  · simp [cycleBody, hti] at h
  · rcases hq : comprehensive_risk_check rcfg env.today env.balance env.volatility
        env.balance (env.positions.getD []) rst with ⟨er, rst2⟩
    cases er with
    | error m =>
      simp only [cycleBody, hti, hq] at h
      simp at h
      refine Or.inl ⟨env.balance, ?_⟩
      rw [← h]
      exact comprehensive_error_imp rcfg env.today env.balance env.volatility env.balance
        (env.positions.getD []) rst m (by rw [hq])
    | ok p =>
      obtain ⟨safe, viols⟩ := p
      by_cases hsafe : safe = false
      · simp [cycleBody, hti, hq, hsafe] at h
      · rcases hh : calculate_hedge_size cfg env.balance with m2 | hv
        · simp only [cycleBody, hti, hq, hh] at h
          simp [hsafe] at h
          refine Or.inr (Or.inl ⟨env.balance, ?_⟩)
          rw [← h]
          exact calculate_hedge_size_error cfg env.balance m2 hh
        · by_cases htv : cfg.target_daily_volume = 0
          · simp only [cycleBody, hti, hq, hh] at h
            simp [hsafe, htv] at h
            exact Or.inr (Or.inr h.symm)
          · simp only [cycleBody, hti, hq, hh] at h
            simp [hsafe, htv] at h

/-- C1: whenever a step inside the cycle body raises, the boundary handler
returns a result with `success = false` whose `error` string is the
exception's message, and that message is non-empty (the cycle itself never
propagates the exception — `execute_strategy_cycle` is total). -/
theorem cycle_catches_exceptions (cfg : StratConfig) (rcfg : RiskConfig)
    (env : CycleEnv) (st : StratState) (rst : RiskState) (msg : String)
    (h : (cycleBody cfg rcfg env st rst).1 = Except.error msg) :
    (execute_strategy_cycle cfg rcfg env st rst).1.success = false ∧
    (execute_strategy_cycle cfg rcfg env st rst).1.error = msg ∧
    msg ≠ "" := by
  have hmsg := cycleBody_error_msg cfg rcfg env st rst msg h
  rcases hout : cycleBody cfg rcfg env st rst with ⟨er, st2, rst2, eff⟩
  rw [hout] at h
  simp only at h
  subst h
  refine ⟨?_, ?_, ?_⟩
  · simp [execute_strategy_cycle, hout]
  · simp [execute_strategy_cycle, hout]
  · rcases hmsg with ⟨v, rfl⟩ | ⟨v, rfl⟩ | rfl
    · exact format_msg_ne_empty v
    · exact unary_msg_ne_empty v
    · decide

/-- The concrete cycle environment used by the witnesses: a good ticker, a
realistic balance mapping, no positions, zero volatility. -/
def envDictBalance : CycleEnv :=
  { ticker := some 143,
    balance := PyVal.dict [("USDC", PyVal.dict [("free", PyVal.num 1000000)])],
    positions := some [],
    volatility := 0 }

/-- Witness for C1: with the balance mapping flowing into the risk check,
the body raises the format `TypeError` and the boundary returns it as a
failed result with a non-empty error. -/
theorem cycle_catches_exceptions_witness :
    (execute_strategy_cycle {} {} envDictBalance {} {}).1.success = false ∧
    (execute_strategy_cycle {} {} envDictBalance {} {}).1.error =
      "unsupported format string passed to dict.__format__" ∧
    "unsupported format string passed to dict.__format__" ≠ "" :=
  cycle_catches_exceptions {} {} envDictBalance {} {}
    "unsupported format string passed to dict.__format__"
    (by simp [cycleBody, envDictBalance, comprehensive_risk_check, update_inventory,
      PyVal.typeName])

/-- C9 counterexample: at a concrete invocation with a successful ticker
fetch, a well-funded balance mapping and benign positions, the cycle fails
with the risk check's format `TypeError` and `place_spot_quotes` is never
attempted — not with the hedge's unary-minus `TypeError` after the quotes
were placed, and the risk check never reports safe (it raises instead). -/
theorem cycle_balance_counterexample :
    (execute_strategy_cycle {} {} envDictBalance {} {}).1.success = false ∧
    (execute_strategy_cycle {} {} envDictBalance {} {}).2.2.2.spotQuotesAttempted = false ∧
    (execute_strategy_cycle {} {} envDictBalance {} {}).1.error =
      "unsupported format string passed to dict.__format__" ∧
    (execute_strategy_cycle {} {} envDictBalance {} {}).1.error ≠
      "bad operand type for unary -: 'dict'" := by
  refine ⟨?_, ?_, ?_, ?_⟩ <;>
    simp [execute_strategy_cycle, cycleBody, envDictBalance, comprehensive_risk_check,
      update_inventory, PyVal.typeName]

/-- C9 amended: whenever the ticker fetch succeeds and the balance fetch
returned a mapping or absent (the only shapes `get_balance` produces), the
cycle fails: the raw balance object is passed as inventory to
`comprehensive_risk_check`, whose `update_inventory` float-formats it and
raises `TypeError` before any quotes are placed; the exception becomes the
failed result at the cycle boundary. -/
theorem cycle_nonnumeric_balance_fails (cfg : StratConfig) (rcfg : RiskConfig)
    (env : CycleEnv) (st : StratState) (rst : RiskState) (p : ℚ)
    (hticker : env.ticker = some p)
    (hbal : (∃ es, env.balance = PyVal.dict es) ∨ env.balance = PyVal.pynone) :
    (execute_strategy_cycle cfg rcfg env st rst).1.success = false ∧
    (execute_strategy_cycle cfg rcfg env st rst).2.2.2.spotQuotesAttempted = false ∧
    (execute_strategy_cycle cfg rcfg env st rst).1.error =
      "unsupported format string passed to " ++ env.balance.typeName ++
        ".__format__" := by
  have hnn : env.balance.isNum = false := by
    rcases hbal with ⟨es, he⟩ | he <;> rw [he] <;> rfl
  have hrc := comprehensive_nonnum_error rcfg env.today env.balance env.volatility
    env.balance (env.positions.getD []) rst hnn
  rcases hq : comprehensive_risk_check rcfg env.today env.balance env.volatility
      env.balance (env.positions.getD []) rst with ⟨er, rst2⟩
  rw [hq] at hrc
  simp only at hrc
  subst hrc
  refine ⟨?_, ?_, ?_⟩ <;>
    simp [execute_strategy_cycle, cycleBody, hticker, hq]

/-- Witness for C9's amended theorem at the concrete environment. -/
theorem cycle_nonnumeric_balance_fails_witness :
    (execute_strategy_cycle {} {} envDictBalance {} {}).1.success = false ∧
    (execute_strategy_cycle {} {} envDictBalance {} {}).2.2.2.spotQuotesAttempted = false ∧
    (execute_strategy_cycle {} {} envDictBalance {} {}).1.error =
      "unsupported format string passed to " ++ envDictBalance.balance.typeName ++
        ".__format__" :=
  cycle_nonnumeric_balance_fails {} {} envDictBalance {} {} 143 rfl
    (Or.inl ⟨[("USDC", PyVal.dict [("free", PyVal.num 1000000)])], rfl⟩)
